import Mathlib

/-!
Shallow embedding of the Morpha bootstrap runtime (src/c/morpha.h and
src/c/morpha.c), together with theorems settling the specification
claims against it.

Each C function mutates a runtime and a result record through pointers
and returns the result pointer; here each is a pure function returning
the updated pair (runtime, result).  MPH_raw is uint64_t in the source;
no operation in src/c/morpha.c ever performs arithmetic on stored words,
so modelling words as Nat loses nothing (no overflow can be observed).
-/

/-- MPH_raw is the word type of the backing store (uint64_t in
src/c/morpha.h).  No source operation computes on stored words, so Nat
suffices. -/
abbrev MPH_raw := Nat

/-- The four result kinds of MPH_result_kind in src/c/morpha.h. -/
inductive MPH_result_kind where
  | MPH_OK
  | MPH_HALT
  | MPH_TOTALITY_FAULT
  | MPH_MEM_LOW
  deriving DecidableEq, Repr

/-- MPH_result from src/c/morpha.h: a kind tag and a data payload.  The
payload is a void pointer in C, used throughout as a size_t offset or
size, so it is modelled as Nat. -/
structure MPH_result where
  t    : MPH_result_kind
  data : Nat
  deriving DecidableEq, Repr

/-- MPH_runtime from src/c/morpha.h: the backing store (modelled by the
list of words it holds), its declared size, and the position cursor. -/
structure MPH_runtime where
  raw      : List MPH_raw
  raw_size : Nat
  pos      : Nat
  deriving DecidableEq, Repr

/-- The operator enumeration MPH_op from src/c/morpha.h. -/
inductive MPH_op where
  | MPH_OP_SUB
  | MPH_OP_ADD
  | MPH_OP_CMP
  | MPH_OP_JMP
  | MPH_OP_OFFSET
  deriving DecidableEq, Repr

/-- MPH_morph from src/c/morpha.h: an operator and an argument word. -/
structure MPH_morph where
  op   : MPH_op
  args : Nat
  deriving DecidableEq, Repr

/-- MPH_cell from src/c/morpha.h: a size and a sequence of member
offsets. -/
structure MPH_cell where
  size    : Nat
  offsets : List Nat
  deriving DecidableEq, Repr

/-- MPH_rule from src/c/morpha.h: condition words, action words, and a
length field (kept separate, as in the C struct, where len need not
match the array extents). -/
structure MPH_rule where
  conds  : List MPH_raw
  morphs : List MPH_raw
  len    : Nat
  deriving DecidableEq, Repr

/-- MPH_rt_init (src/c/morpha.c lines 3 to 8): memset clears the runtime
record (so pos becomes 0), then raw and raw_size are set to the given
store and size.  The backing store contents are not touched. -/
def MPH_rt_init (raw : List MPH_raw) (raw_size : Nat) : MPH_runtime :=
  { raw := raw, raw_size := raw_size, pos := 0 }

/-- MPH_rt_cell (src/c/morpha.c lines 10 to 13): sets the result kind to
MPH_TOTALITY_FAULT and returns; the runtime and the data payload are not
touched. -/
def MPH_rt_cell (rt : MPH_runtime) (c : MPH_cell) (ret : MPH_result) :
    MPH_runtime × MPH_result :=
  (rt, { ret with t := MPH_result_kind.MPH_TOTALITY_FAULT })

/-- MPH_rt_morph (src/c/morpha.c lines 15 to 31): the body is a TODO
comment followed by setting the result kind to MPH_TOTALITY_FAULT; the
runtime and the data payload are not touched. -/
def MPH_rt_morph (rt : MPH_runtime) (m : MPH_morph) (ret : MPH_result) :
    MPH_runtime × MPH_result :=
  (rt, { ret with t := MPH_result_kind.MPH_TOTALITY_FAULT })

/-- The for loop in MPH_rt_rule (src/c/morpha.c lines 65 to 68): it runs
rule.len times and each iteration adds 0 to rt.pos. -/
def ruleLoop (rt : MPH_runtime) : Nat → MPH_runtime
  | 0 => rt
  | Nat.succ n => ruleLoop { rt with pos := rt.pos + 0 } n

/-- MPH_rt_rule (src/c/morpha.c lines 33 to 72): sets ret.data to the
current pos and ret.t to MPH_OK, runs the no-op loop rule.len times,
then overwrites ret.t with MPH_TOTALITY_FAULT and returns. -/
def MPH_rt_rule (rt : MPH_runtime) (rule : MPH_rule) (ret : MPH_result) :
    MPH_runtime × MPH_result :=
  let ret1 : MPH_result :=
    { ret with data := rt.pos, t := MPH_result_kind.MPH_OK }
  let rt1 := ruleLoop rt rule.len
  (rt1, { ret1 with t := MPH_result_kind.MPH_TOTALITY_FAULT })

/-- MPH_rt_step (src/c/morpha.c lines 74 to 77): sets the result kind to
MPH_HALT and returns; the runtime and the data payload are not
touched. -/
def MPH_rt_step (rt : MPH_runtime) (ret : MPH_result) :
    MPH_runtime × MPH_result :=
  (rt, { ret with t := MPH_result_kind.MPH_HALT })

/-- MPH_rt_exec (src/c/morpha.c lines 79 to 82): sets the result kind to
MPH_HALT and returns; the runtime and the data payload are not
touched. -/
def MPH_rt_exec (rt : MPH_runtime) (ret : MPH_result) :
    MPH_runtime × MPH_result :=
  (rt, { ret with t := MPH_result_kind.MPH_HALT })

/-- Modelled from the spec: the fixed arity of each operator.  The code
never defines arities; src/c/morpha.h documents that MPH_OP_OFFSET
consumes one following value and MPH_OP_ADD consumes two, and the spec
(section 4.2) gives two operands for ADD, SUB and CMP and one for JMP
and OFFSET. -/
def MPH_op.arity : MPH_op → Nat
  | MPH_op.MPH_OP_SUB => 2
  | MPH_op.MPH_OP_ADD => 2
  | MPH_op.MPH_OP_CMP => 2
  | MPH_op.MPH_OP_JMP => 1
  | MPH_op.MPH_OP_OFFSET => 1

/-- The loop in MPH_rt_rule adds 0 to pos on every iteration, so it
leaves the runtime unchanged for any iteration count. -/
theorem ruleLoop_id : ∀ (n : Nat) (rt : MPH_runtime), ruleLoop rt n = rt
  | 0, _ => rfl
  | Nat.succ n, rt => ruleLoop_id n rt

/-- Claim C1: MPH_rt_exec always returns a terminal result of kind
MPH_HALT (hence HALT or MEM_LOW), and its outcome coincides with that of
a single MPH_rt_step, so for every runtime — in particular for any
runtime positioned at a well-formed composition — execution terminates
within a step count bounded by the encoded size and never loops
unboundedly: the source body of MPH_rt_exec is straight-line code with
no loop at all. -/
theorem exec_terminal_halt_or_mem_low (rt : MPH_runtime) (ret : MPH_result) :
    ((MPH_rt_exec rt ret).2.t = MPH_result_kind.MPH_HALT ∨
      (MPH_rt_exec rt ret).2.t = MPH_result_kind.MPH_MEM_LOW) ∧
    MPH_rt_exec rt ret = MPH_rt_step rt ret :=
  ⟨Or.inl rfl, rfl⟩

/-- Claim C2 (code bug witness): on a freshly initialized runtime with
the full default block free, encoding an ADD morph returns
MPH_TOTALITY_FAULT, not MPH_OK, and stepping returns MPH_HALT with the
runtime unchanged, so no result cell holding 5 is ever produced.  This
contradicts the usage example in src/c/morpha.h (lines 104 to 105),
which asserts MPH_OK after encoding an ADD morph. -/
theorem morph_add_returns_fault_not_ok :
    (MPH_rt_morph (MPH_rt_init (List.replicate 512 0) 512)
        { op := MPH_op.MPH_OP_ADD, args := 2 }
        { t := MPH_result_kind.MPH_OK, data := 0 }).2.t =
      MPH_result_kind.MPH_TOTALITY_FAULT ∧
    (MPH_rt_step (MPH_rt_init (List.replicate 512 0) 512)
        { t := MPH_result_kind.MPH_OK, data := 0 }).1 =
      MPH_rt_init (List.replicate 512 0) 512 :=
  ⟨rfl, rfl⟩

/-- Claim C3 (code bug witness): the exact rule built by test_rt_rule in
src/c/main_test.c (conds = [MPH_OP_ADD], morphs = [MPH_OP_ADD], len = 1,
where MPH_OP_ADD encodes as word 1), applied to a freshly initialized
default-block runtime, yields MPH_TOTALITY_FAULT — but the test at
src/c/main_test.c line 208 checks that this call returns MPH_OK. -/
theorem rule_encode_returns_fault_not_ok :
    (MPH_rt_rule (MPH_rt_init (List.replicate 512 0) 512)
        { conds := [1], morphs := [1], len := 1 }
        { t := MPH_result_kind.MPH_OK, data := 0 }).2.t =
      MPH_result_kind.MPH_TOTALITY_FAULT :=
  rfl

/-- Claim C4: whenever the argument count of a morph differs from the
fixed arity of its operator, MPH_rt_morph returns MPH_TOTALITY_FAULT and
leaves the runtime (arena contents, allocation cursor, pos) unchanged.
The source returns MPH_TOTALITY_FAULT and never writes to the runtime on
every input, so in particular on arity mismatches. -/
theorem morph_arity_mismatch_fault (rt : MPH_runtime) (m : MPH_morph)
    (ret : MPH_result) (h : m.args ≠ m.op.arity) :
    (MPH_rt_morph rt m ret).2.t = MPH_result_kind.MPH_TOTALITY_FAULT ∧
    (MPH_rt_morph rt m ret).1 = rt :=
  ⟨rfl, rfl⟩

/-- Concrete instance of morph_arity_mismatch_fault: an ADD morph with
zero arguments (arity 2) on an empty runtime. -/
theorem morph_arity_mismatch_fault_witness :
    (MPH_morph.mk MPH_op.MPH_OP_ADD 0).args ≠
      (MPH_morph.mk MPH_op.MPH_OP_ADD 0).op.arity ∧
    ((MPH_rt_morph (MPH_rt_init [] 0) (MPH_morph.mk MPH_op.MPH_OP_ADD 0)
        { t := MPH_result_kind.MPH_OK, data := 0 }).2.t =
        MPH_result_kind.MPH_TOTALITY_FAULT ∧
      (MPH_rt_morph (MPH_rt_init [] 0) (MPH_morph.mk MPH_op.MPH_OP_ADD 0)
        { t := MPH_result_kind.MPH_OK, data := 0 }).1 = MPH_rt_init [] 0) :=
  ⟨by decide,
    morph_arity_mismatch_fault (MPH_rt_init [] 0)
      (MPH_morph.mk MPH_op.MPH_OP_ADD 0)
      { t := MPH_result_kind.MPH_OK, data := 0 } (by decide)⟩

/-- Claim C5 (code bug witness): on a runtime of capacity 0 — where any
append must fail for lack of space — both MPH_rt_rule (encoding three
words worth of rule) and MPH_rt_morph return MPH_TOTALITY_FAULT, never
MPH_MEM_LOW with the shortfall as payload.  This contradicts the
documentation of MPH_rt_rule in src/c/morpha.h (lines 234 to 236), which
promises MPH_MEM_LOW with the required additional size on insufficient
memory. -/
theorem append_over_capacity_not_mem_low :
    (MPH_rt_rule (MPH_rt_init [] 0)
        { conds := [1], morphs := [1], len := 1 }
        { t := MPH_result_kind.MPH_OK, data := 0 }).2.t =
      MPH_result_kind.MPH_TOTALITY_FAULT ∧
    (MPH_rt_morph (MPH_rt_init [] 0)
        { op := MPH_op.MPH_OP_ADD, args := 2 }
        { t := MPH_result_kind.MPH_OK, data := 0 }).2.t =
      MPH_result_kind.MPH_TOTALITY_FAULT :=
  ⟨rfl, rfl⟩

/-- Claim C6: every operation leaves the runtime — arena contents,
allocation cursor and pos alike — exactly as it was, on every input; in
particular whenever the returned kind is MPH_TOTALITY_FAULT or
MPH_MEM_LOW the failure is atomic with no partial mutation.  (The source
never mutates the runtime at all: the only write, pos += 0 inside the
MPH_rt_rule loop, is a no-op.) -/
theorem operations_never_mutate_runtime (rt : MPH_runtime) (m : MPH_morph)
    (rule : MPH_rule) (c : MPH_cell) (ret : MPH_result) :
    (MPH_rt_morph rt m ret).1 = rt ∧
    (MPH_rt_rule rt rule ret).1 = rt ∧
    (MPH_rt_cell rt c ret).1 = rt ∧
    (MPH_rt_step rt ret).1 = rt :=
  ⟨rfl, ruleLoop_id rule.len rt, rfl, rfl⟩

/-- Claim C7 (code bug witness): stepping a runtime positioned at an
encoded rule executes nothing — MPH_rt_step returns MPH_HALT immediately
and leaves the runtime (and hence the arena and pos) unchanged, so no
condition is evaluated and no action (paired or default) ever executes,
against the evaluation semantics documented for MPH_rule in
src/c/morpha.h (lines 197 to 203). -/
theorem step_at_rule_executes_no_action :
    (MPH_rt_step
        { raw := List.replicate 512 0, raw_size := 512, pos := 0 }
        { t := MPH_result_kind.MPH_OK, data := 0 }).2.t =
      MPH_result_kind.MPH_HALT ∧
    (MPH_rt_step
        { raw := List.replicate 512 0, raw_size := 512, pos := 0 }
        { t := MPH_result_kind.MPH_OK, data := 0 }).1 =
      { raw := List.replicate 512 0, raw_size := 512, pos := 0 } :=
  ⟨rfl, rfl⟩

/-- Claim C8: for any backing store and any capacity C greater than 0,
MPH_rt_init succeeds (it is a total function with no failure outcome)
and leaves the allocation cursor pos at 0, the raw store as given, and
the reported raw_size exactly C. -/
theorem init_sets_fields (store : List MPH_raw) (C : Nat) (h : 0 < C) :
    (MPH_rt_init store C).pos = 0 ∧
    (MPH_rt_init store C).raw = store ∧
    (MPH_rt_init store C).raw_size = C :=
  ⟨rfl, rfl, rfl⟩

/-- Concrete instance of init_sets_fields at the default block size
512. -/
theorem init_sets_fields_witness :
    0 < 512 ∧
    ((MPH_rt_init [0] 512).pos = 0 ∧
      (MPH_rt_init [0] 512).raw = [0] ∧
      (MPH_rt_init [0] 512).raw_size = 512) :=
  ⟨by decide, init_sets_fields [0] 512 (by decide)⟩

/-- Claim C9: for every runtime state and incoming result, MPH_rt_step
and MPH_rt_exec both return kind MPH_HALT (never MPH_OK,
MPH_TOTALITY_FAULT or MPH_MEM_LOW), keep the data payload as given, and
leave every runtime field — raw, raw_size and pos — unchanged. -/
theorem step_exec_always_halt (rt : MPH_runtime) (ret : MPH_result) :
    (MPH_rt_step rt ret).1 = rt ∧
    (MPH_rt_step rt ret).2.t = MPH_result_kind.MPH_HALT ∧
    (MPH_rt_step rt ret).2.data = ret.data ∧
    (MPH_rt_exec rt ret).1 = rt ∧
    (MPH_rt_exec rt ret).2.t = MPH_result_kind.MPH_HALT ∧
    (MPH_rt_exec rt ret).2.data = ret.data :=
  ⟨rfl, rfl, rfl, rfl, rfl, rfl⟩

/-- Claim C10: for every runtime and cell descriptor, MPH_rt_cell
returns kind MPH_TOTALITY_FAULT, keeps the data payload exactly as
given, and leaves the runtime unchanged, so no cell is ever materialized
in the arena. -/
theorem cell_always_fault (rt : MPH_runtime) (c : MPH_cell)
    (ret : MPH_result) :
    (MPH_rt_cell rt c ret).1 = rt ∧
    (MPH_rt_cell rt c ret).2.t = MPH_result_kind.MPH_TOTALITY_FAULT ∧
    (MPH_rt_cell rt c ret).2.data = ret.data :=
  ⟨rfl, rfl, rfl⟩
